import Mathlib

/-!
Shallow embedding of `src/src/address_space.rs` (the `AddressSpace` type and
its operations `new`, `add_mapping`, `add_mapping_at`, `remove_mapping`).

Modelling conventions:
* `usize` is modelled as `Nat` with wrapping (release-profile two's-complement)
  arithmetic modulo `2 ^ 64`, written explicitly via `wadd` / `wsub`.
* A `DataSource` capability is opaque; it is modelled by a `Nat` identity
  (two entries share a backing capability iff the identities are equal).
* Rust's `Result<T, &str>` becomes `Except String T`; since the Rust methods
  mutate `self`, each operation returns the result paired with the post-state.
* In the Rust source the expression `2 ^ 39 - 1` is bitwise XOR (with `-`
  binding tighter), i.e. `2 ^^^ 38 = 36`; `rustLimit` reproduces exactly that.
* The `loop` in `add_mapping` / `add_mapping_at` calls `iter.next()` twice per
  iteration, so it advances two entries at a time; the recursion below
  (`addMappingLoop`, `addMappingAtLoop`) reproduces that consumption pattern.
-/

/-- A mapped region: one `MapEntry` record of the Rust source (`source` is the
opaque capability identity, `offset` the offset into it, `span` the length,
`addr` the virtual address of the region's start). -/
structure MapEntry where
  source : Nat
  offset : Nat
  span : Nat
  addr : Nat
deriving DecidableEq, Repr

/-- An address space: a name and the list of mappings (the Rust `LinkedList`
in front-to-back order; `push_back` appends at the end). -/
structure AddressSpace where
  name : String
  mappings : List MapEntry
deriving DecidableEq, Repr

/-- Size of the `usize` value space on a 64-bit target. -/
def USIZE : Nat := 2 ^ 64

/-- Wrapping `usize` addition (Rust release-profile overflow semantics). -/
def wadd (a b : Nat) : Nat := (a + b) % USIZE

/-- Wrapping `usize` subtraction (Rust release-profile overflow semantics). -/
def wsub (a b : Nat) : Nat := (a + USIZE - b) % USIZE

/-- The constant the Rust source writes as `2 ^ 39 - 1`.  In Rust `^` is
bitwise XOR and binds looser than `-`, so the expression parses as
`2 ^ (39 - 1)`, i.e. `Nat.xor 2 38`. -/
def rustLimit : Nat := Nat.xor 2 (39 - 1)

/-- The `loop` of `add_mapping`: consumes the remaining iterator two entries
per iteration; `start_free` is `first.addr + first.span`, `end_free` is
`second.addr - 1` (or `rustLimit` when there is no second entry); succeeds
with `start_free` as soon as `end_free - start_free >= span`, and fails when
the iterator is exhausted. -/
def addMappingLoop (span : Nat) : List MapEntry → Option Nat
  | [] => none
  | [first] =>
      let sf := wadd first.addr first.span
      if span ≤ wsub rustLimit sf then some sf else none
  | first :: second :: rest =>
      let sf := wadd first.addr first.span
      let ef := wsub second.addr 1
      if span ≤ wsub ef sf then some sf
      else addMappingLoop span rest

/-- `AddressSpace::add_mapping` of the Rust source: when the list is empty the
entry is pushed at address `0` (`start_free`'s initial value); otherwise the
two-at-a-time scan `addMappingLoop` picks an address, and the new entry is
appended at the back (`push_back`), or the call errs with the iterator
exhausted. -/
def AddressSpace.add_mapping (a : AddressSpace) (source offset span : Nat) :
    Except String Nat × AddressSpace :=
  if a.mappings.isEmpty then
    (.ok 0, { a with mappings := a.mappings ++ [⟨source, offset, span, 0⟩] })
  else
    match addMappingLoop span a.mappings with
    | some sf =>
        (.ok sf, { a with mappings := a.mappings ++ [⟨source, offset, span, sf⟩] })
    | none => (.error "cannot fit data source in address space", a)

/-- The `loop` of `add_mapping_at`: same two-at-a-time window as
`addMappingLoop`; when `start` lands in the window `[start_free, end_free]`
it checks `start + span <= end_free` and on success reports `start_free`
(the address the Rust code actually stores in the new entry). -/
def addMappingAtLoop (span start : Nat) : List MapEntry → Except String Nat
  | [] => .error "cannot fit data source in address space"
  | [first] =>
      let sf := wadd first.addr first.span
      if sf ≤ start ∧ start ≤ rustLimit then
        if wadd start span ≤ rustLimit then .ok sf
        else .error "cannot fit data source into address space"
      else .error "cannot fit data source in address space"
  | first :: second :: rest =>
      let sf := wadd first.addr first.span
      let ef := wsub second.addr 1
      if sf ≤ start ∧ start ≤ ef then
        if wadd start span ≤ ef then .ok sf
        else .error "cannot fit data source into address space"
      else addMappingAtLoop span start rest

/-- `AddressSpace::add_mapping_at` of the Rust source: when the list is empty
the entry is pushed at address `start` with no validation at all; otherwise
the scan `addMappingAtLoop` runs and on success the new entry is appended at
the back with `addr := start_free` (not `start`). -/
def AddressSpace.add_mapping_at (a : AddressSpace) (source offset span start : Nat) :
    Except String Unit × AddressSpace :=
  if a.mappings.isEmpty then
    (.ok (), { a with mappings := a.mappings ++ [⟨source, offset, span, start⟩] })
  else
    match addMappingAtLoop span start a.mappings with
    | .ok sf =>
        (.ok (), { a with mappings := a.mappings ++ [⟨source, offset, span, sf⟩] })
    | .error e => (.error e, a)

/-- Modelled from the spec: `remove_mapping` in `src/src/address_space.rs` is
`todo!()` (its body is missing), so this follows the spec's words (§4.1):
remove the unique entry whose `addr == start` and whose `source` is the same
backing capability (matching on both fields); fail with `NotFound` when no
such entry exists, leaving the collection unchanged. -/
def AddressSpace.remove_mapping (a : AddressSpace) (source start : Nat) :
    Except String Unit × AddressSpace :=
  if a.mappings.any (fun e => e.addr == start && e.source == source) then
    (.ok (),
     { a with mappings := a.mappings.eraseP (fun e => e.addr == start && e.source == source) })
  else
    (.error "NotFound", a)

/-- `AddressSpace::new` of the Rust source: an empty address space. -/
def AddressSpace.new (name : String) : AddressSpace := ⟨name, []⟩

/-- One call in a sequence of mutating operations on an address space. -/
inductive Op where
  | add (source offset span : Nat)
  | addAt (source offset span start : Nat)
  | remove (source start : Nat)
deriving DecidableEq, Repr

/-- Execute one operation, keeping the post-state. -/
def execOp (a : AddressSpace) : Op → AddressSpace
  | .add s o sp => (a.add_mapping s o sp).2
  | .addAt s o sp st => (a.add_mapping_at s o sp st).2
  | .remove s st => (a.remove_mapping s st).2

/-- Execute a finite sequence of operations starting from `new name`. -/
def execOps (name : String) (ops : List Op) : AddressSpace :=
  ops.foldl execOp (AddressSpace.new name)

/-- Two entries occupy disjoint ranges `[addr, addr+span)`. -/
def disjointRanges (e1 e2 : MapEntry) : Prop :=
  e1.addr + e1.span ≤ e2.addr ∨ e2.addr + e2.span ≤ e1.addr

instance (e1 e2 : MapEntry) : Decidable (disjointRanges e1 e2) := by
  unfold disjointRanges; infer_instance

/-- Every pair of distinct entries in the collection has disjoint ranges. -/
def noOverlap (ms : List MapEntry) : Prop := ms.Pairwise disjointRanges

instance (ms : List MapEntry) : Decidable (noOverlap ms) := by
  unfold noOverlap; infer_instance

/-- The collection is sorted by `addr` (the generous, non-strict reading of
"sorted ascending by addr"). -/
def sortedByAddr (ms : List MapEntry) : Prop :=
  ms.Pairwise (fun e1 e2 => e1.addr ≤ e2.addr)

instance (ms : List MapEntry) : Decidable (sortedByAddr ms) := by
  unfold sortedByAddr; infer_instance

/-- The address-space limit the spec intends: `2 ^ 39 - 1` with `^` read as
exponentiation. -/
def SPEC_LIMIT : Nat := 2 ^ 39 - 1

/-- Follows the spec's words (§4.1, `add_mapping`): the candidate gaps of a
(sorted) entry collection, in ascending order — `[0, first.addr)` when
entries exist (else `[0, LIMIT)`), each inter-entry gap
`[e_i.addr + e_i.span, e_{i+1}.addr)`, and the tail gap
`[last.addr + last.span, LIMIT)`; each gap is a `(start, end)` pair. -/
def specGapsAux : List MapEntry → List (Nat × Nat)
  | [] => []
  | [e] => [(e.addr + e.span, SPEC_LIMIT)]
  | e :: e' :: r => (e.addr + e.span, e'.addr) :: specGapsAux (e' :: r)

/-- Follows the spec's words (§4.1): all candidate gaps, ascending. -/
def specGaps (ms : List MapEntry) : List (Nat × Nat) :=
  match ms with
  | [] => [(0, SPEC_LIMIT)]
  | e :: rest => (0, e.addr) :: specGapsAux (e :: rest)

/-- Follows the spec's words (§4.1): the address `add_mapping` must return —
the start of the first candidate gap (in ascending order) whose size is at
least `span`; `none` when no gap suffices (the `NoSpace` case). -/
def specFirstFit (ms : List MapEntry) (span : Nat) : Option Nat :=
  ((specGaps ms).find? (fun g => decide (span ≤ g.2 - g.1))).map (·.1)

/-- C9: the upper-bound expression written in the code does not evaluate to
`2 ^ 39 - 1`: Rust parses `2 ^ 39 - 1` as `2 XOR (39 - 1)`, which is `36`,
not the intended canonical limit `549755813887`. -/
theorem c9_limit_is_xor_not_pow : rustLimit = 36 ∧ rustLimit ≠ 2 ^ 39 - 1 := by
  constructor
  · decide
  · decide

/-- C10: `add_mapping_at` on an empty address space performs no validation at
all: for every source, offset, span and start (even with `start + span` far
beyond any limit) it succeeds and appends the entry with `addr = start`. -/
theorem c10_add_mapping_at_empty_unchecked (n : String) (source offset span start : Nat) :
    (AddressSpace.new n).add_mapping_at source offset span start =
      (.ok (), ⟨n, [⟨source, offset, span, start⟩]⟩) := rfl

/-- C8: scenario 1 — on an empty space `add_mapping(A, 0, 4096)` returns
address `0`; scenario 2 — on the resulting state `add_mapping(B, 0, 8192)`
returns address `4096`. -/
theorem c8_scenarios_one_and_two :
    ((AddressSpace.new "as").add_mapping 1 0 4096).1 = .ok 0 ∧
    (((AddressSpace.new "as").add_mapping 1 0 4096).2.add_mapping 2 0 8192).1 =
      .ok 4096 := ⟨rfl, rfl⟩

/-- C5: `add_mapping` does not fail with `NoSpace` whenever `span > LIMIT`:
on an empty space a request of span `2 ^ 39` (which exceeds the intended
limit `2 ^ 39 - 1`, so no candidate gap can hold it) succeeds with address
`0` instead of failing. -/
theorem c5_no_nospace_for_oversized_span :
    ((AddressSpace.new "as").add_mapping 1 0 (2 ^ 39)).1 = .ok 0 ∧
    SPEC_LIMIT < 2 ^ 39 := ⟨rfl, by decide⟩

/-- C3: a successful `add_mapping_at(source, offset, span, start)` does not
create its entry at `start`: with one entry `[0,4)` present, the call
`add_mapping_at(B, 0, 2, 10)` succeeds but appends an entry at address `4`
(the scan's `start_free`), not at the requested `start = 10`. -/
theorem c3_entry_not_at_requested_start :
    (AddressSpace.new "as").add_mapping 1 0 4 = (.ok 0, ⟨"as", [⟨1, 0, 4, 0⟩]⟩) ∧
    AddressSpace.add_mapping_at ⟨"as", [⟨1, 0, 4, 0⟩]⟩ 2 0 2 10 =
      (.ok (), ⟨"as", [⟨1, 0, 4, 0⟩, ⟨2, 0, 2, 4⟩]⟩) ∧
    (4 : Nat) ≠ 10 := ⟨rfl, rfl, by decide⟩

/-- C1: the non-overlap invariant fails on the code: starting from `new`, the
sequence `add_mapping(A,0,10); add_mapping(B,0,10); add_mapping(C,0,5)`
leaves entries with ranges `[10,20)` and `[10,15)`, which intersect. -/
theorem c1_overlap_after_three_adds :
    (execOps "as" [.add 1 0 10, .add 2 0 10, .add 3 0 5]).mappings =
      [⟨1, 0, 10, 0⟩, ⟨2, 0, 10, 10⟩, ⟨3, 0, 5, 10⟩] ∧
    ¬ noOverlap (execOps "as" [.add 1 0 10, .add 2 0 10, .add 3 0 5]).mappings :=
  ⟨rfl, by decide⟩

/-- C2: `add_mapping` does not return the start of the lowest-addressed
sufficient gap: with the single entry `[100,110)` (placed by
`add_mapping_at` on the empty space), a request of span `5` should go to the
gap `[0,100)` at address `0`, but the code returns `110`. -/
theorem c2_not_lowest_first_fit :
    (AddressSpace.new "as").add_mapping_at 1 0 10 100 =
      (.ok (), ⟨"as", [⟨1, 0, 10, 100⟩]⟩) ∧
    (AddressSpace.add_mapping ⟨"as", [⟨1, 0, 10, 100⟩]⟩ 2 0 5).1 = .ok 110 ∧
    specFirstFit [⟨1, 0, 10, 100⟩] 5 = some 0 ∧
    (110 : Nat) ≠ 0 := ⟨rfl, rfl, rfl, by decide⟩

/-- C6: the invariant `addr + span ≤ LIMIT` fails on the code: from `new`,
the single call `add_mapping(A, 0, 2 ^ 40)` succeeds and leaves an entry
with `addr + span = 2 ^ 40 > 2 ^ 39 - 1`. -/
theorem c6_entry_exceeds_limit :
    (execOps "as" [.add 1 0 (2 ^ 40)]).mappings = [⟨1, 0, 2 ^ 40, 0⟩] ∧
    ∃ e ∈ (execOps "as" [.add 1 0 (2 ^ 40)]).mappings,
      SPEC_LIMIT < e.addr + e.span := ⟨rfl, by decide⟩

/-- C7: the mappings collection is not kept sorted ascending by `addr`:
starting from `new`, `add_mapping_at(A, 0, 2, 2^64 - 1)` then
`add_mapping(B, 0, 5)` (whose `start_free` wraps around to `1`) leaves the
address list `[2^64 - 1, 1]`, which is not ascending. -/
theorem c7_not_sorted_after_ops :
    (execOps "as" [.addAt 1 0 2 (2 ^ 64 - 1), .add 2 0 5]).mappings.map
        MapEntry.addr = [2 ^ 64 - 1, 1] ∧
    ¬ sortedByAddr (execOps "as" [.addAt 1 0 2 (2 ^ 64 - 1), .add 2 0 5]).mappings :=
  ⟨rfl, by decide⟩

/-- C4: `remove_mapping(source, start)` (modelled from the spec, the Rust body
being `todo!()`) removes the entry matching on both `addr = start` and the
same `source` capability; when no entry matches both fields it fails with
`NotFound` and leaves the collection completely unchanged; on success the
first (and under the uniqueness of matches, the only) matching entry is
removed, all other entries keeping their relative order, and sortedness by
`addr` is preserved. -/
theorem c4_remove_mapping_matches_both_fields (a : AddressSpace) (src st : Nat) :
    ((∀ e ∈ a.mappings, ¬(e.addr = st ∧ e.source = src)) →
      a.remove_mapping src st = (.error "NotFound", a)) ∧
    (∀ l₁ e l₂, a.mappings = l₁ ++ e :: l₂ → e.addr = st → e.source = src →
      (∀ x ∈ l₁, ¬(x.addr = st ∧ x.source = src)) →
      a.remove_mapping src st = (.ok (), { a with mappings := l₁ ++ l₂ })) ∧
    (sortedByAddr a.mappings → sortedByAddr (a.remove_mapping src st).2.mappings) := by
  obtain ⟨nm, ms⟩ := a
  refine ⟨?_, ?_, ?_⟩
  · intro h
    have hany : ms.any (fun e => e.addr == st && e.source == src) = false := by
      simp only [List.any_eq_false, Bool.and_eq_true, beq_iff_eq, not_and]
      intro e he h1 h2
      exact h e he ⟨h1, h2⟩
    simp [AddressSpace.remove_mapping, hany]
  · intro l₁ e l₂ hms he hsrc hl₁
    simp only at hms
    subst hms
    have hpe : (e.addr == st && e.source == src) = true := by
      simp [he, hsrc]
    have hany : (l₁ ++ e :: l₂).any (fun x => x.addr == st && x.source == src) = true := by
      simp only [List.any_eq_true]
      exact ⟨e, by simp, hpe⟩
    have hnot : ∀ b ∈ l₁, ¬((fun x => x.addr == st && x.source == src) b = true) := by
      intro b hb
      simp only [Bool.and_eq_true, beq_iff_eq]
      intro hh
      exact hl₁ b hb ⟨hh.1, hh.2⟩
    have herase :
        (l₁ ++ e :: l₂).eraseP (fun x => x.addr == st && x.source == src) = l₁ ++ l₂ := by
      rw [List.eraseP_append_right (e :: l₂) hnot,
        List.eraseP_cons_of_pos (p := fun x : MapEntry => x.addr == st && x.source == src) hpe]
    simp [AddressSpace.remove_mapping, hany, herase]
  · intro hs
    unfold AddressSpace.remove_mapping
    by_cases hany : ms.any (fun e => e.addr == st && e.source == src) = true
    · simp only [hany, if_true]
      exact List.Pairwise.sublist (List.eraseP_sublist ms) hs
    · simp only [Bool.not_eq_true] at hany
      simp [hany]
      exact hs

/-- Witness for C4 at concrete inputs: a removal whose `addr` matches but
whose `source` does not fails with `NotFound` and changes nothing; a removal
matching both fields deletes exactly that entry; sortedness survives. -/
theorem c4_remove_mapping_matches_both_fields_witness :
    AddressSpace.remove_mapping ⟨"as", [⟨1, 0, 4, 0⟩]⟩ 2 0 =
      (.error "NotFound", ⟨"as", [⟨1, 0, 4, 0⟩]⟩) ∧
    AddressSpace.remove_mapping ⟨"as", [⟨1, 0, 4, 0⟩, ⟨2, 0, 4, 4⟩]⟩ 2 4 =
      (.ok (), ⟨"as", [⟨1, 0, 4, 0⟩]⟩) ∧
    sortedByAddr (AddressSpace.remove_mapping ⟨"as", [⟨1, 0, 4, 0⟩, ⟨2, 0, 4, 4⟩]⟩ 2 4).2.mappings := by
  refine ⟨?_, ?_, ?_⟩
  · exact (c4_remove_mapping_matches_both_fields ⟨"as", [⟨1, 0, 4, 0⟩]⟩ 2 0).1 (by decide)
  · exact (c4_remove_mapping_matches_both_fields ⟨"as", [⟨1, 0, 4, 0⟩, ⟨2, 0, 4, 4⟩]⟩ 2 4).2.1
      [⟨1, 0, 4, 0⟩] ⟨2, 0, 4, 4⟩ [] rfl rfl rfl (by decide)
  · exact (c4_remove_mapping_matches_both_fields ⟨"as", [⟨1, 0, 4, 0⟩, ⟨2, 0, 4, 4⟩]⟩ 2 4).2.2
      (by decide)
